import Mathlib

/-!
Shallow embedding of the VYRA panic-button application core (src/app.py).

Strings are modelled as `List Char`.  Python's `str.strip` is modelled by
`pyStrip` (dropping whitespace from both ends), `str.upper` by mapping
`Char.toUpper`, `str.isdigit` by `Char.isDigit`, and slicing `[:n]` by
`List.take n`.  JSON payload values are modelled by `JVal`; a field read with
`payload.get(k)` that may be missing is an `Option JVal`, and Python's
stringification `str(v)` is `pyStr`.  The wall clock is passed in explicitly:
`nowMs` models `int(time.time()*1000)` and an ISO-timestamp argument models
`_now_iso()`.  Each endpoint is a pure function from the store contents it
reads (plus the request payload and clock) to its response together with the
store contents after the call and a flag recording whether a write occurred.
-/

set_option maxRecDepth 10000

/-- Characters of a Lean string literal, used to write concrete inputs. -/
def chars (s : String) : List Char := s.data

/-- A JSON-ish payload value, as handled by `request.get_json` in app.py.
Numbers are modelled as integers (the ids stringified by the code are
Python ints). -/
inductive JVal : Type where
  | null : JVal
  | bool (b : Bool) : JVal
  | num (n : Int) : JVal
  | str (s : List Char) : JVal
deriving Repr, DecidableEq

/-- Python `str(v)` on a payload value (`str(None) = "None"`, booleans
capitalised, integers in decimal). -/
def pyStr : JVal → List Char
  | JVal.null => chars "None"
  | JVal.bool true => chars "True"
  | JVal.bool false => chars "False"
  | JVal.num n => (toString n).data
  | JVal.str s => s

/-- Python `str(n)` for an int, used for the id comparison in ack. -/
def pyStrInt (n : Int) : List Char := (toString n).data

/-- Python `s.strip()`: remove whitespace from both ends. -/
def pyStrip (s : List Char) : List Char :=
  ((s.dropWhile Char.isWhitespace).reverse.dropWhile Char.isWhitespace).reverse

/-- Python `s.upper()` (ASCII case mapping). -/
def pyUpper (s : List Char) : List Char := s.map Char.toUpper

/-- `re_sub_phone` from app.py: remove spaces, remember a leading '+',
keep only digits, and prepend the '+' when it was there. -/
def re_sub_phone (phone : List Char) : List Char :=
  let phone1 := phone.filter (fun c => c ≠ ' ')
  let plus : List Char := if phone1.head? = some '+' then ['+'] else []
  let digits := phone1.filter Char.isDigit
  plus ++ digits

/-- `DEFAULT_OCCURRENCES` from app.py. -/
def DEFAULT_OCCURRENCES : List (List Char) :=
  [ chars "Abordagem suspeita",
    chars "Tentativa de assalto",
    chars "Ameaça / intimidação",
    chars "Passageiro agressivo",
    chars "Seguimento / perseguição",
    chars "Sequestro relâmpago (suspeita)",
    chars "Emergência médica",
    chars "Pane / risco na via",
    chars "Outro" ]

/-- A stored trusted contact (`contacts.json` record). -/
structure Contact : Type where
  name : List Char
  phone : List Char
deriving Repr, DecidableEq

/-- A stored alert (`alerts.json` record).  `ack_ts` is `none` until the
alert is acknowledged (the key is absent in the created dict). -/
structure Alert : Type where
  id : Int
  ts : List Char
  status : List Char
  occurrence : List Char
  driver_name : List Char
  lat : JVal
  lng : JVal
  accuracy : JVal
  ack_ts : Option (List Char)
deriving Repr, DecidableEq

/-- Errors the contact-add endpoint can answer with (both are HTTP 400). -/
inductive AddError : Type where
  | validation : AddError
  | capacity : AddError
deriving Repr, DecidableEq

deriving instance DecidableEq for Except

/-- HTTP status code of an `api_add_contact` response. -/
def addContactHttpStatus : Except AddError (List Contact) → Nat
  | Except.error _ => 400
  | Except.ok _ => 200

/-- Result of a call to `api_add_contact`: the JSON response, the contact
store contents after the call, and whether `_write_json` ran. -/
structure AddResult : Type where
  resp : Except AddError (List Contact)
  store : List Contact
  wrote : Bool
deriving Repr, DecidableEq

/-- `api_add_contact` from app.py.  `rawName`/`rawPhone` are the
stringified payload fields (`str(payload.get("name", ""))` etc.). -/
def api_add_contact (store : List Contact) (rawName rawPhone : List Char) :
    AddResult :=
  let name := (pyStrip rawName).take 60
  let phone := (pyStrip rawPhone).take 30
  if name = [] ∨ phone = [] then
    ⟨Except.error AddError.validation, store, false⟩
  else if 3 ≤ store.length then
    ⟨Except.error AddError.capacity, store, false⟩
  else
    let contacts := store ++ [⟨pyUpper name, re_sub_phone phone⟩]
    ⟨Except.ok contacts, contacts, true⟩

/-- Outcome of trying to read a store file, as seen by `_read_json`:
the file may be absent, opening/reading it may raise, `json.load` may
raise, or it may hold a parsed value. -/
inductive FileState (α : Type) : Type where
  | absent : FileState α
  | ioError : FileState α
  | parseError : FileState α
  | valid (a : α) : FileState α
deriving Repr, DecidableEq

/-- `_read_json` from app.py: any failure is swallowed and the default is
returned; only a successfully parsed file yields its contents. -/
def read_json {α : Type} (fs : FileState α) (default : α) : α :=
  match fs with
  | FileState.valid a => a
  | _ => default

/-- `api_get_contacts` from app.py: the `contacts` field of the response,
given the state of `contacts.json`. -/
def api_get_contacts (fs : FileState (List Contact)) : List Contact :=
  read_json fs []

/-- `api_get_alerts` from app.py: the `alerts` field of the response. -/
def api_get_alerts (fs : FileState (List Alert)) : List Alert :=
  read_json fs []

/-- The status strings accepted by the ack endpoint. -/
def validStatuses : List (List Char) := [chars "ack", chars "closed", chars "open"]

/-- The effective status stored by `api_ack_alert`:
`str(payload.get("status", "ack")).strip()`, replaced by `"ack"` when not
one of `("ack","closed","open")`. -/
def effStatus (rawStatus : Option JVal) : List Char :=
  let status := pyStrip (pyStr (rawStatus.getD (JVal.str (chars "ack"))))
  if status ∈ validStatuses then status else chars "ack"

/-- The two mutations `a["status"] = status; a["ack_ts"] = _now_iso()`
performed on a matching record. -/
def ackSet (a : Alert) (status now : List Char) : Alert :=
  { a with status := status, ack_ts := some now }

/-- The in-place update loop of `api_ack_alert`: walk the list, and at the
first record whose stringified id equals `idStr` set its status and
`ack_ts` and stop.  Returns the updated list and the `changed` flag. -/
def ackUpdate (alerts : List Alert) (idStr : List Char)
    (status now : List Char) : List Alert × Bool :=
  match alerts with
  | [] => ([], false)
  | a :: rest =>
    if pyStrInt a.id = idStr then
      (ackSet a status now :: rest, true)
    else
      let r := ackUpdate rest idStr status now
      (a :: r.1, r.2)

/-- Result of `api_ack_alert`: the `ok` flag of the response, the stored
`status` echoed back, the alert store after the call, and whether
`_write_json` ran. -/
structure AckResult : Type where
  ok : Bool
  respStatus : List Char
  store : List Alert
  wrote : Bool
deriving Repr, DecidableEq

/-- `api_ack_alert` from app.py.  `reqId` is `payload.get("id")` (missing
key gives `JVal.null`), `rawStatus` is `payload.get("status")`, `now`
models `_now_iso()`. -/
def api_ack_alert (store : List Alert) (reqId : JVal)
    (rawStatus : Option JVal) (now : List Char) : AckResult :=
  let status := effStatus rawStatus
  let r := ackUpdate store (pyStr reqId) status now
  ⟨r.2, status, r.1, r.2⟩

/-- The JSON body of a POST /api/alert request; `none` models an absent
key (so `payload.get(k, d)` is `(… ).getD d`). -/
structure CreatePayload : Type where
  occurrence : Option JVal
  driver_name : Option JVal
  lat : JVal
  lng : JVal
  accuracy : JVal
deriving Repr, DecidableEq

/-- The occurrence actually stored by `api_create_alert`:
`str(payload.get("occurrence", "Abordagem suspeita")).strip()`, replaced
by `"Outro"` when not in `DEFAULT_OCCURRENCES`. -/
def effOccurrence (rawOccurrence : Option JVal) : List Char :=
  let occ := pyStrip (pyStr (rawOccurrence.getD (JVal.str (chars "Abordagem suspeita"))))
  if occ ∈ DEFAULT_OCCURRENCES then occ else chars "Outro"

/-- The last `n` elements of a list, i.e. Python's `l[-n:]` for `n > 0`. -/
def takeLast (n : Nat) (l : List α) : List α := l.drop (l.length - n)

/-- `api_create_alert` from app.py.  `nowMs` models
`int(time.time()*1000)` and `nowIso` models `_now_iso()`.  Returns the
created record and the alert store after the call (the endpoint always
writes and always answers ok=true). -/
def api_create_alert (store : List Alert) (p : CreatePayload)
    (nowMs : Int) (nowIso : List Char) : Alert × List Alert :=
  let occurrence := effOccurrence p.occurrence
  let driver_name := (pyStrip (pyStr (p.driver_name.getD (JVal.str [])))).take 60
  let alert : Alert :=
    ⟨nowMs, nowIso, chars "open", occurrence, driver_name, p.lat, p.lng, p.accuracy, none⟩
  let alerts := takeLast 100 (store ++ [alert])
  (alert, alerts)

/-- Folding repeated alert creations over the store, used for the
101-creation scenario.  The i-th creation uses `nowMs = i`. -/
def createMany (p : CreatePayload) (ids : List Nat) (store : List Alert) :
    List Alert :=
  ids.foldl (fun s i => (api_create_alert s p (Int.ofNat i) (chars "t")).2) store

/-- A minimal payload for the scenario: every field absent / null. -/
def emptyPayload : CreatePayload := ⟨none, none, JVal.null, JVal.null, JVal.null⟩

/-! ### Helper lemmas -/

theorem ackUpdate_not_found {alerts : List Alert} {idStr status now : List Char}
    (h : ∀ a ∈ alerts, pyStrInt a.id ≠ idStr) :
    ackUpdate alerts idStr status now = (alerts, false) := by
  induction alerts with
  | nil => rfl
  | cons a rest ih =>
    have ha : pyStrInt a.id ≠ idStr := h a (by simp)
    simp only [ackUpdate, if_neg ha]
    rw [ih (fun b hb => h b (by simp [hb]))]

theorem ackUpdate_found {pre : List Alert} {a : Alert} {post : List Alert}
    {idStr status now : List Char}
    (hpre : ∀ b ∈ pre, pyStrInt b.id ≠ idStr)
    (ha : pyStrInt a.id = idStr) :
    ackUpdate (pre ++ a :: post) idStr status now =
      (pre ++ ackSet a status now :: post, true) := by
  induction pre with
  | nil => simp [ackUpdate, if_pos ha]
  | cons b rest ih =>
    have hb : pyStrInt b.id ≠ idStr := hpre b (by simp)
    simp only [List.cons_append, ackUpdate, if_neg hb, List.append_eq]
    rw [ih (fun x hx => hpre x (by simp [hx]))]

theorem takeLast_length {α : Type} (n : Nat) (l : List α) :
    (takeLast n l).length = min n l.length := by
  simp only [takeLast, List.length_drop]
  omega

theorem takeLast_suffix {α : Type} (n : Nat) (l : List α) : takeLast n l <:+ l :=
  List.drop_suffix _ _

theorem takeLast_concat_pos {α : Type} {n : Nat} (hn : 0 < n) (l : List α) (a : α) :
    takeLast n (l ++ [a]) = l.drop (l.length + 1 - n) ++ [a] := by
  have hle : (l ++ [a]).length - n ≤ l.length := by
    simp only [List.length_append, List.length_cons, List.length_nil]
    omega
  rw [takeLast, List.drop_append_of_le_length hle]
  simp only [List.length_append, List.length_cons, List.length_nil]

theorem re_sub_phone_mem {p : List Char} {c : Char} (h : c ∈ re_sub_phone p) :
    c = '+' ∨ c.isDigit = true := by
  simp only [re_sub_phone] at h
  rcases List.mem_append.mp h with h1 | h1
  · left
    by_cases hc : (p.filter (fun c => c ≠ ' ')).head? = some '+'
    · rw [if_pos hc] at h1
      simpa using h1
    · rw [if_neg hc] at h1
      simp at h1
  · right
    exact (List.mem_filter.mp h1).2

theorem re_sub_phone_no_space (p : List Char) :
    (re_sub_phone p).filter (fun c => c ≠ ' ') = re_sub_phone p := by
  apply List.filter_eq_self.mpr
  intro c hc
  rcases re_sub_phone_mem hc with h | h
  · subst h
    decide
  · simp only [ne_eq, decide_not, Bool.not_eq_eq_eq_not, Bool.not_true, decide_eq_false_iff_not]
    intro hcs
    subst hcs
    exact absurd h (by decide)

theorem re_sub_phone_digits (p : List Char) :
    (re_sub_phone p).filter Char.isDigit =
      (p.filter (fun c => c ≠ ' ')).filter Char.isDigit := by
  simp only [re_sub_phone, List.filter_append]
  have h2 : ((p.filter (fun c => c ≠ ' ')).filter Char.isDigit).filter Char.isDigit =
      (p.filter (fun c => c ≠ ' ')).filter Char.isDigit := by
    apply List.filter_eq_self.mpr
    intro c hc
    exact (List.mem_filter.mp hc).2
  rw [h2]
  by_cases hc : (p.filter (fun c => c ≠ ' ')).head? = some '+'
  · rw [if_pos hc]
    simp [List.filter]
  · rw [if_neg hc]
    simp

theorem re_sub_phone_head (p : List Char) :
    ((re_sub_phone p).head? = some '+') =
      ((p.filter (fun c => c ≠ ' ')).head? = some '+') := by
  simp only [re_sub_phone]
  by_cases hc : (p.filter (fun c => c ≠ ' ')).head? = some '+'
  · rw [if_pos hc]
    simp only [List.cons_append, List.nil_append, List.head?_cons, eq_iff_iff]
    exact ⟨fun _ => hc, fun _ => trivial⟩
  · rw [if_neg hc]
    simp only [List.nil_append, eq_iff_iff]
    constructor
    · intro hh
      have hmem : '+' ∈ (p.filter (fun c => c ≠ ' ')).filter Char.isDigit :=
        List.mem_of_mem_head? (Option.mem_def.mpr hh)
      exact absurd (List.mem_filter.mp hmem).2 (by decide)
    · intro hh
      exact absurd hh hc

theorem re_sub_phone_eq (q : List Char) :
    re_sub_phone q =
      (if (q.filter (fun c => c ≠ ' ')).head? = some '+' then ['+'] else []) ++
        (q.filter (fun c => c ≠ ' ')).filter Char.isDigit := rfl

/-- Fixture alert used in concrete instances. -/
def mkAlert (i : Int) : Alert :=
  ⟨i, chars "2024-01-01T00:00:00-03:00", chars "open", chars "Outro", chars "D",
    JVal.num 1, JVal.num 2, JVal.num 3, none⟩

/-- Fixture contact store at the 3-contact capacity limit. -/
def threeContacts : List Contact :=
  [⟨chars "A", chars "1"⟩, ⟨chars "B", chars "2"⟩, ⟨chars "C", chars "3"⟩]

/-! ### Claim theorems -/

/-- C1 (counterexample): with a store holding the single alert of id 1, a
matching ack request with the invalid status "bogus" succeeds but stores
status "ack", not the requested status "bogus" — so the matching alert's
status is not always set to the requested status. -/
theorem ack_requested_status_counterexample :
    pyStrInt (mkAlert 1).id = pyStr (JVal.num 1) ∧
    (api_ack_alert [mkAlert 1] (JVal.num 1) (some (JVal.str (chars "bogus")))
        (chars "T")).ok = true ∧
    (api_ack_alert [mkAlert 1] (JVal.num 1) (some (JVal.str (chars "bogus")))
        (chars "T")).store.map Alert.status = [chars "ack"] ∧
    chars "ack" ≠ chars "bogus" := by decide

/-- C1 (amended): if the store splits as `pre ++ a :: post` where `a` is the
first alert whose stringified id equals the stringified requested id, the ack
operation reports ok, writes, and replaces exactly `a` by `a` with status set
to the validated status (the trimmed requested status when it is one of
open/ack/closed, otherwise "ack") and a non-null ack_ts; if no alert matches
it reports ok=false, does not write, and leaves the store unchanged. -/
theorem ack_spec (store : List Alert) (reqId : JVal) (rawStatus : Option JVal)
    (now : List Char) :
    (∀ pre a post,
        store = pre ++ a :: post →
        (∀ b ∈ pre, pyStrInt b.id ≠ pyStr reqId) →
        pyStrInt a.id = pyStr reqId →
        (api_ack_alert store reqId rawStatus now).ok = true ∧
        (api_ack_alert store reqId rawStatus now).wrote = true ∧
        (api_ack_alert store reqId rawStatus now).store =
          pre ++ ackSet a (effStatus rawStatus) now :: post ∧
        (ackSet a (effStatus rawStatus) now).ack_ts ≠ none) ∧
    ((∀ b ∈ store, pyStrInt b.id ≠ pyStr reqId) →
        (api_ack_alert store reqId rawStatus now).ok = false ∧
        (api_ack_alert store reqId rawStatus now).wrote = false ∧
        (api_ack_alert store reqId rawStatus now).store = store) ∧
    (pyStrip (pyStr (rawStatus.getD (JVal.str (chars "ack")))) ∈ validStatuses →
        effStatus rawStatus =
          pyStrip (pyStr (rawStatus.getD (JVal.str (chars "ack"))))) := by
  refine ⟨?_, ?_, ?_⟩
  · intro pre a post hs hpre ha
    subst hs
    simp [api_ack_alert, ackUpdate_found hpre ha, ackSet]
  · intro hall
    simp [api_ack_alert, ackUpdate_not_found hall]
  · intro hv
    simp only [effStatus, if_pos hv]

theorem ack_spec_witness :
    (api_ack_alert [mkAlert 5] (JVal.num 5) (some (JVal.str (chars "closed")))
        (chars "W")).ok = true ∧
    (api_ack_alert [mkAlert 5] (JVal.num 5) (some (JVal.str (chars "closed")))
        (chars "W")).wrote = true ∧
    (api_ack_alert [mkAlert 5] (JVal.num 5) (some (JVal.str (chars "closed")))
        (chars "W")).store =
      [] ++ ackSet (mkAlert 5) (effStatus (some (JVal.str (chars "closed")))) (chars "W") :: [] ∧
    (ackSet (mkAlert 5) (effStatus (some (JVal.str (chars "closed")))) (chars "W")).ack_ts ≠ none :=
  (ack_spec [mkAlert 5] (JVal.num 5) (some (JVal.str (chars "closed"))) (chars "W")).1
    [] (mkAlert 5) [] rfl (by decide) (by decide)

/-- C8: when the ack operation hits its first matching alert, only the
status and ack_ts fields of that record change; its other seven fields, the
records before and after it, and the list length and order are preserved. -/
theorem ack_frame (store : List Alert) (reqId : JVal) (rawStatus : Option JVal)
    (now : List Char) (pre : List Alert) (a : Alert) (post : List Alert)
    (hs : store = pre ++ a :: post)
    (hpre : ∀ b ∈ pre, pyStrInt b.id ≠ pyStr reqId)
    (ha : pyStrInt a.id = pyStr reqId) :
    ∃ a' : Alert,
      (api_ack_alert store reqId rawStatus now).store = pre ++ a' :: post ∧
      a'.id = a.id ∧ a'.ts = a.ts ∧ a'.occurrence = a.occurrence ∧
      a'.driver_name = a.driver_name ∧ a'.lat = a.lat ∧ a'.lng = a.lng ∧
      a'.accuracy = a.accuracy ∧
      (api_ack_alert store reqId rawStatus now).store.length = store.length := by
  subst hs
  refine ⟨ackSet a (effStatus rawStatus) now, ?_, rfl, rfl, rfl, rfl, rfl, rfl, rfl, ?_⟩
  · simp only [api_ack_alert, ackUpdate_found hpre ha]
  · simp [api_ack_alert, ackUpdate_found hpre ha]

theorem ack_frame_witness :
    ∃ a' : Alert,
      (api_ack_alert [mkAlert 9] (JVal.num 9) none (chars "V")).store =
        [] ++ a' :: [] ∧
      a'.id = (mkAlert 9).id ∧ a'.ts = (mkAlert 9).ts ∧
      a'.occurrence = (mkAlert 9).occurrence ∧
      a'.driver_name = (mkAlert 9).driver_name ∧ a'.lat = (mkAlert 9).lat ∧
      a'.lng = (mkAlert 9).lng ∧ a'.accuracy = (mkAlert 9).accuracy ∧
      (api_ack_alert [mkAlert 9] (JVal.num 9) none (chars "V")).store.length =
        ([mkAlert 9] : List Alert).length :=
  ack_frame [mkAlert 9] (JVal.num 9) none (chars "V") [] (mkAlert 9) []
    rfl (by decide) (by decide)

/-- C10: phone normalization is idempotent: normalizing an already
normalized phone string returns it unchanged. -/
theorem re_sub_phone_idempotent (p : List Char) :
    re_sub_phone (re_sub_phone p) = re_sub_phone p := by
  rw [re_sub_phone_eq (re_sub_phone p), re_sub_phone_no_space, re_sub_phone_digits]
  simp only [re_sub_phone_head]
  exact (re_sub_phone_eq p).symm

/-- C2: after any create call the stored list is the most-recent entries of
the appended list in insertion order — its length is min 100 (n+1), it is a
suffix of the old store with the new alert appended, it keeps the newest
entry last — and after 101 creations from an empty store the length is 100,
the first-created alert (id 0) is gone and the 101st (id 100) is present. -/
theorem create_keeps_last_100 (store : List Alert) (p : CreatePayload)
    (nowMs : Int) (nowIso : List Char) :
    ((api_create_alert store p nowMs nowIso).2).length ≤ 100 ∧
    ((api_create_alert store p nowMs nowIso).2).length = min 100 (store.length + 1) ∧
    (api_create_alert store p nowMs nowIso).2 =
      store.drop (store.length + 1 - 100) ++ [(api_create_alert store p nowMs nowIso).1] ∧
    (api_create_alert store p nowMs nowIso).2 <:+
      store ++ [(api_create_alert store p nowMs nowIso).1] ∧
    ((api_create_alert store p nowMs nowIso).2).getLast? =
      some (api_create_alert store p nowMs nowIso).1 ∧
    (createMany emptyPayload (List.range 101) []).length = 100 ∧
    (∀ a ∈ createMany emptyPayload (List.range 101) [], a.id ≠ 0) ∧
    (∃ a ∈ createMany emptyPayload (List.range 101) [], a.id = 100) := by
  have h3 : (api_create_alert store p nowMs nowIso).2 =
      store.drop (store.length + 1 - 100) ++ [(api_create_alert store p nowMs nowIso).1] := by
    simp only [api_create_alert]
    exact takeLast_concat_pos (by decide) store _
  refine ⟨?_, ?_, h3, ?_, ?_, by decide, by decide, by decide⟩
  · rw [h3]
    simp only [List.length_append, List.length_drop, List.length_cons, List.length_nil]
    omega
  · simp only [api_create_alert]
    rw [takeLast_length]
    simp [List.length_append]
  · simp only [api_create_alert]
    exact takeLast_suffix _ _
  · rw [h3]
    exact List.getLast?_concat _

/-- C3 (counterexample): on a store already holding 3 contacts, an add call
whose name is blank fails with a ValidationError, not a CapacityError — so
the operation does not always fail with a CapacityError at capacity. -/
theorem contact_capacity_counterexample :
    3 ≤ threeContacts.length ∧
    (api_add_contact threeContacts (chars "   ") (chars "123")).resp =
      Except.error AddError.validation ∧
    (Except.error AddError.validation : Except AddError (List Contact)) ≠
      Except.error AddError.capacity ∧
    (api_add_contact threeContacts (chars "   ") (chars "123")).wrote = false := by
  decide

/-- C3 (amended): on a store holding 3 or more contacts, every add call
fails with HTTP 400 (a CapacityError whenever name and phone are non-empty
after trimming and truncation, a ValidationError otherwise), nothing is
written, and the store is unchanged. -/
theorem contact_capacity_amended (store : List Contact)
    (rawName rawPhone : List Char) (h : 3 ≤ store.length) :
    ((api_add_contact store rawName rawPhone).resp = Except.error AddError.validation ∨
      (api_add_contact store rawName rawPhone).resp = Except.error AddError.capacity) ∧
    addContactHttpStatus (api_add_contact store rawName rawPhone).resp = 400 ∧
    (api_add_contact store rawName rawPhone).store = store ∧
    (api_add_contact store rawName rawPhone).wrote = false ∧
    ((pyStrip rawName).take 60 ≠ [] → (pyStrip rawPhone).take 30 ≠ [] →
      (api_add_contact store rawName rawPhone).resp = Except.error AddError.capacity) ∧
    (((pyStrip rawName).take 60 = [] ∨ (pyStrip rawPhone).take 30 = []) →
      (api_add_contact store rawName rawPhone).resp = Except.error AddError.validation) := by
  by_cases hv : (pyStrip rawName).take 60 = [] ∨ (pyStrip rawPhone).take 30 = []
  · have he : api_add_contact store rawName rawPhone =
        ⟨Except.error AddError.validation, store, false⟩ := by
      simp only [api_add_contact, if_pos hv]
    rw [he]
    refine ⟨Or.inl rfl, rfl, rfl, rfl, ?_, fun _ => rfl⟩
    intro h1 h2
    rcases hv with hv | hv
    · exact absurd hv h1
    · exact absurd hv h2
  · have he : api_add_contact store rawName rawPhone =
        ⟨Except.error AddError.capacity, store, false⟩ := by
      simp only [api_add_contact, if_neg hv, if_pos h]
    rw [he]
    exact ⟨Or.inr rfl, rfl, rfl, rfl, fun _ _ => rfl, fun hh => absurd hh hv⟩

theorem contact_capacity_amended_witness :
    ((api_add_contact threeContacts (chars "DAD") (chars "12")).resp =
        Except.error AddError.validation ∨
      (api_add_contact threeContacts (chars "DAD") (chars "12")).resp =
        Except.error AddError.capacity) ∧
    addContactHttpStatus (api_add_contact threeContacts (chars "DAD") (chars "12")).resp = 400 ∧
    (api_add_contact threeContacts (chars "DAD") (chars "12")).store = threeContacts ∧
    (api_add_contact threeContacts (chars "DAD") (chars "12")).wrote = false ∧
    ((pyStrip (chars "DAD")).take 60 ≠ [] → (pyStrip (chars "12")).take 30 ≠ [] →
      (api_add_contact threeContacts (chars "DAD") (chars "12")).resp =
        Except.error AddError.capacity) ∧
    (((pyStrip (chars "DAD")).take 60 = [] ∨ (pyStrip (chars "12")).take 30 = []) →
      (api_add_contact threeContacts (chars "DAD") (chars "12")).resp =
        Except.error AddError.validation) :=
  contact_capacity_amended threeContacts (chars "DAD") (chars "12") (by decide)

/-- C4: an add call whose name or phone is empty after trimming and
truncation fails with a ValidationError and writes nothing; otherwise, on a
store below capacity, it appends exactly one contact — name trimmed,
truncated to 60 characters and uppercased, phone normalized by
`re_sub_phone` — persists, and returns the updated sequence with the old
contacts first in their original order. -/
theorem add_contact_spec (store : List Contact) (rawName rawPhone : List Char) :
    (((pyStrip rawName).take 60 = [] ∨ (pyStrip rawPhone).take 30 = []) →
      (api_add_contact store rawName rawPhone).resp = Except.error AddError.validation ∧
      (api_add_contact store rawName rawPhone).wrote = false ∧
      (api_add_contact store rawName rawPhone).store = store ∧
      addContactHttpStatus (api_add_contact store rawName rawPhone).resp = 400) ∧
    ((pyStrip rawName).take 60 ≠ [] → (pyStrip rawPhone).take 30 ≠ [] →
      store.length < 3 →
      (api_add_contact store rawName rawPhone).resp =
        Except.ok (store ++ [⟨pyUpper ((pyStrip rawName).take 60),
          re_sub_phone ((pyStrip rawPhone).take 30)⟩]) ∧
      (api_add_contact store rawName rawPhone).store =
        store ++ [⟨pyUpper ((pyStrip rawName).take 60),
          re_sub_phone ((pyStrip rawPhone).take 30)⟩] ∧
      (api_add_contact store rawName rawPhone).wrote = true) := by
  constructor
  · intro hv
    have he : api_add_contact store rawName rawPhone =
        ⟨Except.error AddError.validation, store, false⟩ := by
      simp only [api_add_contact, if_pos hv]
    rw [he]
    exact ⟨rfl, rfl, rfl, rfl⟩
  · intro h1 h2 h3
    have hv : ¬((pyStrip rawName).take 60 = [] ∨ (pyStrip rawPhone).take 30 = []) := by
      rintro (hh | hh)
      · exact h1 hh
      · exact h2 hh
    have hcap : ¬(3 ≤ store.length) := by omega
    have he : api_add_contact store rawName rawPhone =
        ⟨Except.ok (store ++ [⟨pyUpper ((pyStrip rawName).take 60),
            re_sub_phone ((pyStrip rawPhone).take 30)⟩]),
          store ++ [⟨pyUpper ((pyStrip rawName).take 60),
            re_sub_phone ((pyStrip rawPhone).take 30)⟩], true⟩ := by
      simp only [api_add_contact, if_neg hv, if_neg hcap]
    rw [he]
    exact ⟨rfl, rfl, rfl⟩

theorem add_contact_spec_witness :
    (api_add_contact [] (chars " ana maria ") (chars "+55 11 9999-8888")).resp =
      Except.ok ([] ++ [⟨pyUpper ((pyStrip (chars " ana maria ")).take 60),
        re_sub_phone ((pyStrip (chars "+55 11 9999-8888")).take 30)⟩]) ∧
    (api_add_contact [] (chars " ana maria ") (chars "+55 11 9999-8888")).store =
      [] ++ [⟨pyUpper ((pyStrip (chars " ana maria ")).take 60),
        re_sub_phone ((pyStrip (chars "+55 11 9999-8888")).take 30)⟩] ∧
    (api_add_contact [] (chars " ana maria ") (chars "+55 11 9999-8888")).wrote = true :=
  (add_contact_spec [] (chars " ana maria ") (chars "+55 11 9999-8888")).2
    (by decide) (by decide) (by decide)

/-- C5: every create call succeeds and stores an alert whose status is
"open", whose id is the creation time in milliseconds, and whose occurrence
always lies in the fixed set: when the supplied occurrence is present but
(after trimming) not in the fixed set, "Outro" is stored — in particular
occurrence "Bogus" is stored as "Outro". -/
theorem create_alert_spec (store : List Alert) (p : CreatePayload)
    (nowMs : Int) (nowIso : List Char) :
    (api_create_alert store p nowMs nowIso).1.status = chars "open" ∧
    (api_create_alert store p nowMs nowIso).1.id = nowMs ∧
    (api_create_alert store p nowMs nowIso).1.occurrence ∈ DEFAULT_OCCURRENCES ∧
    (∀ v, p.occurrence = some v → pyStrip (pyStr v) ∉ DEFAULT_OCCURRENCES →
      (api_create_alert store p nowMs nowIso).1.occurrence = chars "Outro") ∧
    (api_create_alert store
        ⟨some (JVal.str (chars "Bogus")), none, JVal.null, JVal.null, JVal.null⟩
        nowMs nowIso).1.occurrence = chars "Outro" := by
  refine ⟨rfl, rfl, ?_, ?_, ?_⟩
  · simp only [api_create_alert, effOccurrence]
    by_cases hc : pyStrip (pyStr (p.occurrence.getD
        (JVal.str (chars "Abordagem suspeita")))) ∈ DEFAULT_OCCURRENCES
    · rw [if_pos hc]
      exact hc
    · rw [if_neg hc]
      decide
  · intro v hv hnot
    simp only [api_create_alert, effOccurrence, hv, Option.getD_some]
    rw [if_neg hnot]
  · simp only [api_create_alert, effOccurrence]
    decide

theorem create_alert_spec_witness :
    (api_create_alert []
        ⟨some (JVal.str (chars "Bogus")), none, JVal.null, JVal.null, JVal.null⟩
        7 (chars "w")).1.occurrence = chars "Outro" :=
  (create_alert_spec []
      ⟨some (JVal.str (chars "Bogus")), none, JVal.null, JVal.null, JVal.null⟩
      7 (chars "w")).2.2.2.1 (JVal.str (chars "Bogus")) rfl (by decide)

/-- C6 (counterexample): the normalization of "+55 (11) 9999-8888" is
"+551199998888", not the "+5511999988881" with a trailing 1 that the first
spec equality states. -/
theorem phone_normalization_counterexample :
    re_sub_phone (chars "+55 (11) 9999-8888") = chars "+551199998888" ∧
    chars "+551199998888" ≠ chars "+5511999988881" := by decide

/-- C6 (amended): phone normalization maps "+55 (11) 9999-8888" to
"+551199998888", and normalize("+55 11 9999-8888") = "+551199998888" as the
second spec equality states. -/
theorem phone_normalization_examples :
    re_sub_phone (chars "+55 (11) 9999-8888") = chars "+551199998888" ∧
    re_sub_phone (chars "+55 11 9999-8888") = chars "+551199998888" := by decide

/-- C7: a store read returns the parsed file contents when the file parses,
and the empty sequence whenever the file is absent, unreadable, or fails to
parse — every read failure is swallowed, for both stores. -/
theorem read_swallows_failures (fs : FileState (List Contact))
    (fsa : FileState (List Alert)) :
    (∀ l, fs = FileState.valid l → api_get_contacts fs = l) ∧
    ((fs = FileState.absent ∨ fs = FileState.ioError ∨ fs = FileState.parseError) →
      api_get_contacts fs = []) ∧
    (∀ l, fsa = FileState.valid l → api_get_alerts fsa = l) ∧
    ((fsa = FileState.absent ∨ fsa = FileState.ioError ∨ fsa = FileState.parseError) →
      api_get_alerts fsa = []) := by
  refine ⟨?_, ?_, ?_, ?_⟩
  · intro l hl
    subst hl
    rfl
  · rintro (h | h | h) <;> subst h <;> rfl
  · intro l hl
    subst hl
    rfl
  · rintro (h | h | h) <;> subst h <;> rfl

theorem read_swallows_failures_witness :
    api_get_contacts (FileState.valid [⟨chars "A", chars "1"⟩]) =
      [⟨chars "A", chars "1"⟩] ∧
    api_get_alerts (FileState.parseError : FileState (List Alert)) = [] :=
  ⟨(read_swallows_failures (FileState.valid [⟨chars "A", chars "1"⟩])
      FileState.parseError).1 _ rfl,
    (read_swallows_failures (FileState.valid [⟨chars "A", chars "1"⟩])
      FileState.parseError).2.2.2 (Or.inr (Or.inr rfl))⟩

/-- C9: when the request body omits the occurrence field entirely, the
stored occurrence is the default "Abordagem suspeita" (a member of the
fixed set), not the fallback "Outro". -/
theorem create_default_occurrence (store : List Alert) (p : CreatePayload)
    (nowMs : Int) (nowIso : List Char) (h : p.occurrence = none) :
    (api_create_alert store p nowMs nowIso).1.occurrence = chars "Abordagem suspeita" ∧
    chars "Abordagem suspeita" ≠ chars "Outro" ∧
    chars "Abordagem suspeita" ∈ DEFAULT_OCCURRENCES := by
  refine ⟨?_, by decide, by decide⟩
  simp only [api_create_alert, effOccurrence, h, Option.getD_none]
  decide

theorem create_default_occurrence_witness :
    (api_create_alert [] emptyPayload 3 (chars "z")).1.occurrence =
      chars "Abordagem suspeita" ∧
    chars "Abordagem suspeita" ≠ chars "Outro" ∧
    chars "Abordagem suspeita" ∈ DEFAULT_OCCURRENCES :=
  create_default_occurrence [] emptyPayload 3 (chars "z") rfl
